import Mathlib

/-!
Shallow embedding of `pywhispercpp/examples/main.py` (the CLI driver):

* `_get_params` — translation of argparse arguments into the nested parameter
  dictionary handed to the engine (`_get_params` in the source, lines 30-50);
* `run` / `runLoop` — the multi-file batch loop with its shared `segs` local,
  its `except KeyboardInterrupt` / `except Exception` handlers and the
  `finally` output-dispatch block (`run` in the source, lines 53-99);
* `deriveFlags` — the CLI-flag derivation loop over the parameter schema and
  mapping tables (`main` in the source, lines 144-175).

Python dictionaries are modelled as association lists in insertion order
(assignment to an existing key keeps its position, a new key is appended),
which is exactly CPython's observable dict behaviour.  Argument values
produced by argparse are opaque scalars (strings, ints, bools) or `None`;
they are modelled as `Option A` for an abstract value type `A`, with
`Option.none` standing for Python's `None`.  The parameter schema and mapping
tables live in `pywhispercpp/constants.py`, which is not part of the
examined sources, so they are parameters of every definition here.
Exceptions raised by the embedded Python code (`ValueError` from tuple
unpacking, `TypeError` from indexing a non-dict, `UnboundLocalError` from the
`finally` block) are made explicit in `Except` results and in the event
trace.
-/

namespace PyWhisperCpp

/-- Lookup in a Python dict modelled as an association list
(`d[k]` / `d.get(k)` / `k in d`). Keys in a Python dict are unique, so
first-match lookup is faithful. -/
def pyLookup {α : Type} : List (String × α) → String → Option α
  | [], _ => Option.none
  | (k, v) :: rest, key => if k = key then some v else pyLookup rest key

/-- Assignment `d[k] = v` on a Python dict: overwrite in place when the key
exists (keeping its position), append otherwise. -/
def dictSet {α : Type} : List (String × α) → String → α → List (String × α)
  | [], k, v => [(k, v)]
  | (k', v') :: rest, k, v =>
      if k' = k then (k', v) :: rest else (k', v') :: dictSet rest k v

/-- Helper for `splitDots`: splits a character list at every dot, mirroring
CPython's `str.split(".")`. -/
def splitCharAux : List Char → List Char → List (List Char)
  | [], acc => [acc.reverse]
  | c :: rest, acc =>
      if c = '.' then acc.reverse :: splitCharAux rest []
      else splitCharAux rest (c :: acc)

/-- Python `s.split(".")`. -/
def splitDots (s : String) : List String :=
  (splitCharAux s.toList []).map (fun l => String.mk l)

/-- Python `"." in s` (for the single character `'.'` substring containment
is character membership). -/
def hasDot (s : String) : Bool :=
  s.toList.any (fun c => c = '.')

/-- Python `s.replace("_", "-")`. -/
def dashify (s : String) : String :=
  String.mk (s.toList.map (fun c => if c = '_' then '-' else c))

/-- A value stored in the `params` dict built by `_get_params`: either a
scalar argument value taken from argparse (possibly `None`), or the nested
one-level group dict that the code creates with `params[arg_] = {}`. -/
inductive PVal (A : Type) where
  | atom  (v : Option A)
  | group (entries : List (String × Option A))
deriving DecidableEq

/-- The dict comprehension
`inv_params_mapping = {v: k for k, v in constants.PARAMS_MAPPING.items()}`
(main.py line 35): later duplicates overwrite earlier ones, insertion order
kept. -/
def inv_params_mapping (mapping : List (String × String)) : List (String × String) :=
  mapping.foldl (fun acc kv => dictSet acc kv.2 kv.1) []

/-- One iteration of the `for arg in args.__dict__` loop of `_get_params`
(main.py lines 36-49), acting on the accumulated `params` dict:

* `if arg in constants.PARAMS_SCHEMA and getattr(args, arg) is not None:`
  assign directly;
* `elif arg in inv_params_mapping:` resolve to the canonical path; if it
  contains a dot, unpack `arg_, subarg_ = arg_.split(".")` (a `ValueError`
  when the split does not have exactly two parts), create the group dict
  when absent, and assign `params[arg_][subarg_]` (a `TypeError` when the
  existing entry is not a dict);
* otherwise `pass`. -/
def resolveArg {A : Type} (schema : List String) (invMap : List (String × String))
    (params : List (String × PVal A)) (arg : String) (v : Option A) :
    Except String (List (String × PVal A)) :=
  if arg ∈ schema ∧ v.isSome = true then
    .ok (dictSet params arg (PVal.atom v))
  else
    match pyLookup invMap arg with
    | some canon =>
        if hasDot canon = true then
          match splitDots canon with
          | [grp, fld] =>
              match pyLookup params grp with
              | Option.none => .ok (dictSet params grp (PVal.group [(fld, v)]))
              | some (PVal.group d) =>
                  .ok (dictSet params grp (PVal.group (dictSet d fld v)))
              | some (PVal.atom _) => .error "TypeError"
          | _ => .error "ValueError"
        else
          .ok (dictSet params canon (PVal.atom v))
    | Option.none => .ok params

/-- The whole `for arg in args.__dict__` loop, folding `resolveArg` over the
argument list (argparse's `args.__dict__` in insertion order). -/
def getParamsLoop {A : Type} (schema : List String) (invMap : List (String × String)) :
    List (String × Option A) → List (String × PVal A) →
    Except String (List (String × PVal A))
  | [], params => .ok params
  | (arg, v) :: rest, params =>
      match resolveArg schema invMap params arg v with
      | .ok params' => getParamsLoop schema invMap rest params'
      | .error e => .error e

/-- `_get_params(args)` (main.py lines 30-50), parameterised by the schema
keys and the `PARAMS_MAPPING` table from the absent `constants` module. -/
def _get_params {A : Type} (schema : List String) (mapping : List (String × String))
    (args : List (String × Option A)) : Except String (List (String × PVal A)) :=
  getParamsLoop schema (inv_params_mapping mapping) args []

/-- A transcript segment is opaque to this layer; its text stands for it. -/
abbrev Seg := String

/-- Behaviour of `m.transcribe(file, ...)` on one file: return a segment
list, raise a generic exception, or raise `KeyboardInterrupt`. -/
inductive Outcome where
  | success (segs : List Seg)
  | exn
  | interrupt
deriving DecidableEq

/-- The four output flags of the CLI (`args.output_txt` etc.). -/
structure OutFlags where
  output_txt : Bool
  output_vtt : Bool
  output_srt : Bool
  output_csv : Bool
deriving DecidableEq

/-- Observable events of the batch loop, in program order:
`attempt f` is the call `m.transcribe(f, ...)`; `errorLog` is
`logger.error(f"Error while processing file {file}: ...")`; `interruptLog`
is `logger.info("Transcription manually stopped")`; the `write*` events are
the `utils.output_*` calls of the `finally` block; `consoleSeg` is one
`logger.info(f"Segment {i:02}: {seg}")` line; `nameError` is the
`UnboundLocalError` raised by `if segs:` when `segs` was never assigned. -/
inductive Event where
  | attempt (file : String)
  | errorLog (file : String)
  | interruptLog
  | writeTxt (file : String) (segs : List Seg)
  | writeVtt (file : String) (segs : List Seg)
  | writeSrt (file : String) (segs : List Seg)
  | writeCsv (file : String) (segs : List Seg)
  | consoleSeg (file : String) (idx : Nat) (seg : Seg)
  | nameError
deriving DecidableEq

/-- Discriminator for per-segment console log lines
(`logger.info(f"Segment {i:02}: {seg}")`). -/
def isConsoleSeg : Event → Bool
  | Event.consoleSeg _ _ _ => true
  | _ => false

/-- Terminal state of one file, `PROCESSING → {SUCCEEDED, FAILED}`. -/
inductive FileStatus where
  | succeeded
  | failed
deriving DecidableEq

/-- How the batch loop ends: all files consumed, `break` taken after a
`KeyboardInterrupt`, or an exception escaping the loop (the
`UnboundLocalError` from the `finally` block). -/
inductive RunExit where
  | completed
  | interrupted
  | crashed
deriving DecidableEq

/-- The body of the `if segs:` branch of the `finally` block (main.py lines
80-99): txt, vtt, srt writers each guarded by their own flag, then either
the csv writer or — `else` — one console log line per enumerated segment. -/
def outputDispatch (flags : OutFlags) (file : String) (segs : List Seg) : List Event :=
  (if flags.output_txt then [Event.writeTxt file segs] else []) ++
  (if flags.output_vtt then [Event.writeVtt file segs] else []) ++
  (if flags.output_srt then [Event.writeSrt file segs] else []) ++
  (if flags.output_csv then [Event.writeCsv file segs]
   else segs.enum.map (fun p => Event.consoleSeg file p.1 p.2))

/-- The `finally` block (main.py lines 78-99). `segs` is `Option.none` while
the local is still unbound, in which case `if segs:` raises
`UnboundLocalError`; an empty list is falsy, so nothing is emitted; a
non-empty list is dispatched. -/
def finallyBlock (flags : OutFlags) (file : String) :
    Option (List Seg) → Except (List Event) (List Event)
  | Option.none => .error [Event.nameError]
  | some s => .ok (if s.isEmpty then [] else outputDispatch flags file s)

/-- The `for file in args.media_file` loop of `run` (main.py lines 65-99).
State threaded through the iterations: the shared local `segs` (never reset
per iteration; `Option.none` = still unbound), the event trace, and the
per-file status list.  Python control flow modelled exactly:

* on success `segs` is rebound and the `finally` block runs;
* on a generic exception the handler logs, the `finally` block runs (with
  the stale `segs`), and the loop continues;
* on `KeyboardInterrupt` the handler logs, the `finally` block runs, and
  then the `break` takes effect;
* an `UnboundLocalError` raised inside `finally` escapes the loop. -/
def runLoop (engine : String → Outcome) (flags : OutFlags) :
    List String → Option (List Seg) → List Event → List (String × FileStatus) →
    List Event × List (String × FileStatus) × RunExit
  | [], _, ev, res => (ev, res, RunExit.completed)
  | file :: rest, segs, ev, res =>
      match engine file with
      | Outcome.success s =>
          match finallyBlock flags file (some s) with
          | .ok d => runLoop engine flags rest (some s)
                       (ev ++ [Event.attempt file] ++ d)
                       (res ++ [(file, FileStatus.succeeded)])
          | .error d => (ev ++ [Event.attempt file] ++ d,
                         res ++ [(file, FileStatus.succeeded)], RunExit.crashed)
      | Outcome.exn =>
          match finallyBlock flags file segs with
          | .ok d => runLoop engine flags rest segs
                       (ev ++ [Event.attempt file, Event.errorLog file] ++ d)
                       (res ++ [(file, FileStatus.failed)])
          | .error d => (ev ++ [Event.attempt file, Event.errorLog file] ++ d,
                         res ++ [(file, FileStatus.failed)], RunExit.crashed)
      | Outcome.interrupt =>
          match finallyBlock flags file segs with
          | .ok d => (ev ++ [Event.attempt file, Event.interruptLog] ++ d,
                      res, RunExit.interrupted)
          | .error d => (ev ++ [Event.attempt file, Event.interruptLog] ++ d,
                         res, RunExit.crashed)

/-- The batch part of `run(args)`: the loop started with `segs` unbound and
empty accumulators. -/
def run (engine : String → Outcome) (flags : OutFlags) (files : List String) :
    List Event × List (String × FileStatus) × RunExit :=
  runLoop engine flags files Option.none [] []

/-- A `PARAMS_SCHEMA` entry as far as flag derivation looks at it:
`pdict defaults` when `param_fields["type"] is dict` (with the
`default_.items()` sub-entries, values opaque), `patom` otherwise. -/
inductive PType where
  | pdict (defaults : List (String × String))
  | patom (default : String)
deriving DecidableEq

/-- The `for param in constants.PARAMS_SCHEMA` flag-registration loop of
`main` (main.py lines 144-175), returning the derived flag names in
registration order:

* dict-typed entry: for each default sub-key, look `"{param}.{dft_key}"` up
  in `PARAMS_MAPPING`; only a truthy result (`if map_val:`) registers
  `--{map_val.replace('_','-')}`;
* other entries: `--{mapped.replace('_','-')}` when
  `param in PARAMS_MAPPING`, else `--{param.replace('_','-')}`. -/
def deriveFlags (schema : List (String × PType)) (mapping : List (String × String)) :
    List String :=
  schema.flatMap (fun pe =>
    match pe.2 with
    | PType.pdict defaults =>
        defaults.flatMap (fun kv =>
          match pyLookup mapping (pe.1 ++ "." ++ kv.1) with
          | some mapVal => if mapVal = "" then [] else ["--" ++ dashify mapVal]
          | Option.none => [])
    | PType.patom _ =>
        match pyLookup mapping pe.1 with
        | some mapped => ["--" ++ dashify mapped]
        | Option.none => ["--" ++ dashify pe.1])

/-! ### Helper lemmas shared by several verification theorems -/

/-- Splitting a dot-free character list yields the single chunk. -/
lemma splitCharAux_of_no_dot :
    ∀ (l acc : List Char), l.any (fun c => c = '.') = false →
      splitCharAux l acc = [acc.reverse ++ l] := by
  intro l
  induction l with
  | nil => intro acc _; simp [splitCharAux]
  | cons c rest ih =>
      intro acc h
      simp only [List.any_cons, Bool.or_eq_false_iff] at h
      have hc : ¬ (c = '.') := by
        intro he; rw [he] at h; simp at h
      rw [splitCharAux, if_neg hc, ih _ h.2]
      simp

/-- Python `s.split(".")` on a dot-free string returns `[s]`. -/
lemma splitDots_of_no_dot (s : String) (h : hasDot s = false) :
    splitDots s = [s] := by
  rw [splitDots, splitCharAux_of_no_dot _ _ h]
  simp

/-- If `s.split(".")` has two chunks then `"." in s` is true. -/
lemma hasDot_of_splitDots_pair {s grp fld : String}
    (h : splitDots s = [grp, fld]) : hasDot s = true := by
  by_contra hc
  rw [Bool.not_eq_true] at hc
  rw [splitDots_of_no_dot s hc] at h
  exact absurd (congrArg List.length h) (by simp)

/-- Every event emitted by the output-dispatch block is a writer call or a
console segment line for the dispatched file and segment list. -/
lemma mem_outputDispatch {flags : OutFlags} {file : String} {s : List Seg}
    {e : Event} (he : e ∈ outputDispatch flags file s) :
    e = Event.writeTxt file s ∨ e = Event.writeVtt file s ∨
    e = Event.writeSrt file s ∨ e = Event.writeCsv file s ∨
    ∃ i seg, e = Event.consoleSeg file i seg := by
  unfold outputDispatch at he
  rcases List.mem_append.1 he with h | h
  · rcases List.mem_append.1 h with h | h
    · rcases List.mem_append.1 h with h | h
      · left; revert h; split <;> simp
      · right; left; revert h; split <;> simp
    · right; right; left; revert h; split <;> simp
  · revert h; split
    · intro h
      have h' := List.mem_singleton.1 h
      exact Or.inr (Or.inr (Or.inr (Or.inl h')))
    · intro h
      rcases List.mem_map.1 h with ⟨p, _, hp⟩
      exact Or.inr (Or.inr (Or.inr (Or.inr ⟨p.1, p.2, hp.symm⟩)))

/-- The output-dispatch block never invokes the engine: no `attempt` event. -/
lemma attempt_not_mem_outputDispatch (flags : OutFlags) (file g : String)
    (s : List Seg) : Event.attempt g ∉ outputDispatch flags file s := by
  intro h
  rcases mem_outputDispatch h with h | h | h | h | ⟨i, seg, h⟩ <;> exact absurd h (by simp)

/-- On a non-empty segment list the dispatch block emits at least one event
(a csv write or the console enumeration). -/
lemma outputDispatch_ne_nil (flags : OutFlags) (file : String) {s : List Seg}
    (hs : s ≠ []) : outputDispatch flags file s ≠ [] := by
  intro h
  have hlen := congrArg List.length h
  rw [outputDispatch] at hlen
  simp only [List.length_append, List.length_nil] at hlen
  rcases hcsv : flags.output_csv with _ | _ <;> rw [hcsv] at hlen <;>
    simp [List.length_eq_zero] at hlen
  exact hs hlen.2

/-- The batch loop only ever appends to the event trace it was given. -/
lemma runLoop_events_extend (engine : String → Outcome) (flags : OutFlags) :
    ∀ (files : List String) (segs : Option (List Seg)) (ev : List Event)
      (res : List (String × FileStatus)),
      ∃ t, (runLoop engine flags files segs ev res).1 = ev ++ t := by
  intro files
  induction files with
  | nil => intro segs ev res; exact ⟨[], by simp [runLoop]⟩
  | cons file rest ih =>
      intro segs ev res
      rcases hfile : engine file with s | _ | _
      · obtain ⟨t, ht⟩ := ih (some s)
          (ev ++ [Event.attempt file] ++
            (if s.isEmpty then [] else outputDispatch flags file s))
          (res ++ [(file, FileStatus.succeeded)])
        refine ⟨[Event.attempt file] ++
          (if s.isEmpty then [] else outputDispatch flags file s) ++ t, ?_⟩
        simp only [runLoop, hfile, finallyBlock, ht]
        simp [List.append_assoc]
      · rcases segs with _ | s
        · exact ⟨[Event.attempt file, Event.errorLog file, Event.nameError],
            by simp [runLoop, hfile, finallyBlock]⟩
        · obtain ⟨t, ht⟩ := ih (some s)
            (ev ++ [Event.attempt file, Event.errorLog file] ++
              (if s.isEmpty then [] else outputDispatch flags file s))
            (res ++ [(file, FileStatus.failed)])
          refine ⟨[Event.attempt file, Event.errorLog file] ++
            (if s.isEmpty then [] else outputDispatch flags file s) ++ t, ?_⟩
          simp only [runLoop, hfile, finallyBlock, ht]
          simp [List.append_assoc]
      · rcases segs with _ | s
        · exact ⟨[Event.attempt file, Event.interruptLog, Event.nameError],
            by simp [runLoop, hfile, finallyBlock]⟩
        · exact ⟨[Event.attempt file, Event.interruptLog] ++
            (if s.isEmpty then [] else outputDispatch flags file s),
            by simp [runLoop, hfile, finallyBlock]⟩

/-- A non-empty list is not falsy. -/
lemma isEmpty_false_of_ne_nil {s : List Seg} (hs : s ≠ []) :
    s.isEmpty = false := by
  cases s with
  | nil => exact absurd rfl hs
  | cons a l => rfl

/-- Console log lines pass the `isConsoleSeg` filter unchanged. -/
lemma filter_console_enum (f : String) (l : List (Nat × Seg)) :
    (l.map (fun p => Event.consoleSeg f p.1 p.2)).filter isConsoleSeg =
      l.map (fun p => Event.consoleSeg f p.1 p.2) := by
  rw [List.filter_eq_self]
  intro a ha
  rcases List.mem_map.1 ha with ⟨p, _, rfl⟩
  rfl

/-! ### Verification of the claims -/

/-- C1: in a batch of three files where transcribing the second raises a
non-interrupt exception and the first and third succeed, the exception is
caught and logged at the file boundary (an `errorLog` event for file 2), it
does not propagate out of the loop (the run completes normally), the third
file is still attempted, and the per-file statuses are SUCCEEDED, FAILED,
SUCCEEDED. -/
theorem c1_batch_failure_isolation (engine : String → Outcome)
    (flags : OutFlags) (f1 f2 f3 : String) (s1 s3 : List Seg)
    (h1 : engine f1 = Outcome.success s1) (h2 : engine f2 = Outcome.exn)
    (h3 : engine f3 = Outcome.success s3) :
    (run engine flags [f1, f2, f3]).2.2 = RunExit.completed ∧
    (run engine flags [f1, f2, f3]).2.1 =
      [(f1, FileStatus.succeeded), (f2, FileStatus.failed),
       (f3, FileStatus.succeeded)] ∧
    Event.attempt f3 ∈ (run engine flags [f1, f2, f3]).1 ∧
    Event.errorLog f2 ∈ (run engine flags [f1, f2, f3]).1 := by
  refine ⟨?_, ?_, ?_, ?_⟩ <;>
    simp [run, runLoop, finallyBlock, h1, h2, h3]

/-- Closed witness for `c1_batch_failure_isolation`, on the batch
`["a", "b", "c"]` where only `"b"` raises. -/
theorem c1_batch_failure_isolation_witness :
    ((fun f => if f = "b" then Outcome.exn else Outcome.success [f]) "a" =
        Outcome.success ["a"]) ∧
    ((fun f => if f = "b" then Outcome.exn else Outcome.success [f]) "b" =
        Outcome.exn) ∧
    ((fun f => if f = "b" then Outcome.exn else Outcome.success [f]) "c" =
        Outcome.success ["c"]) ∧
    ((run (fun f => if f = "b" then Outcome.exn else Outcome.success [f])
        ⟨true, false, false, false⟩ ["a", "b", "c"]).2.2 = RunExit.completed ∧
     (run (fun f => if f = "b" then Outcome.exn else Outcome.success [f])
        ⟨true, false, false, false⟩ ["a", "b", "c"]).2.1 =
       [("a", FileStatus.succeeded), ("b", FileStatus.failed),
        ("c", FileStatus.succeeded)] ∧
     Event.attempt "c" ∈
       (run (fun f => if f = "b" then Outcome.exn else Outcome.success [f])
         ⟨true, false, false, false⟩ ["a", "b", "c"]).1 ∧
     Event.errorLog "b" ∈
       (run (fun f => if f = "b" then Outcome.exn else Outcome.success [f])
         ⟨true, false, false, false⟩ ["a", "b", "c"]).1) :=
  ⟨rfl, rfl, rfl,
   c1_batch_failure_isolation _ ⟨true, false, false, false⟩ "a" "b" "c"
     ["a"] ["c"] rfl rfl rfl⟩

/-- C9: if transcription of the very first file raises a non-interrupt
exception, the `finally` block's `if segs:` reads the never-assigned local
and raises `UnboundLocalError`, which escapes the loop: the whole run is
exactly one attempt, the error log, and the unbound-variable error, the
first file is recorded FAILED, and no further file is ever attempted. -/
theorem c9_first_file_failure_crashes (engine : String → Outcome)
    (flags : OutFlags) (f1 : String) (rest : List String)
    (h : engine f1 = Outcome.exn) :
    run engine flags (f1 :: rest) =
      ([Event.attempt f1, Event.errorLog f1, Event.nameError],
       [(f1, FileStatus.failed)], RunExit.crashed) := by
  simp [run, runLoop, finallyBlock, h]

/-- Closed witness for `c9_first_file_failure_crashes`: a two-file batch
whose first file raises. -/
theorem c9_first_file_failure_crashes_witness :
    ((fun _ => Outcome.exn) "a" = Outcome.exn) ∧
    run (fun _ => Outcome.exn) ⟨true, false, false, false⟩ ["a", "b"] =
      ([Event.attempt "a", Event.errorLog "a", Event.nameError],
       [("a", FileStatus.failed)], RunExit.crashed) :=
  ⟨rfl, c9_first_file_failure_crashes _ ⟨true, false, false, false⟩ "a" ["b"] rfl⟩

/-- C3: when processing of a file fails with a non-interrupt exception right
after a file that succeeded with non-empty segments, the `finally` block of
the failed file still runs the output dispatch with the previous file's
leftover segments (`segs` is never reset per iteration): every dispatch
event for the failed file, built from the previous file's segments, occurs
in the run's event trace, and that dispatch is non-empty. Stated for the
loop at an arbitrary reached state, so the failing file may sit at any
position of the batch. -/
theorem c3_stale_segments_reemitted (engine : String → Outcome)
    (flags : OutFlags) (f g : String) (rest : List String)
    (segs0 : Option (List Seg)) (ev0 : List Event)
    (res0 : List (String × FileStatus)) (s : List Seg)
    (hf : engine f = Outcome.success s) (hs : s ≠ [])
    (hg : engine g = Outcome.exn) :
    outputDispatch flags g s ≠ [] ∧
    ∀ e ∈ outputDispatch flags g s,
      e ∈ (runLoop engine flags (f :: g :: rest) segs0 ev0 res0).1 := by
  have hE := isEmpty_false_of_ne_nil hs
  refine ⟨outputDispatch_ne_nil flags g hs, fun e he => ?_⟩
  have hstep : runLoop engine flags (f :: g :: rest) segs0 ev0 res0 =
      runLoop engine flags rest (some s)
        (ev0 ++ [Event.attempt f] ++ outputDispatch flags f s ++
          [Event.attempt g, Event.errorLog g] ++ outputDispatch flags g s)
        (res0 ++ [(f, FileStatus.succeeded)] ++ [(g, FileStatus.failed)]) := by
    simp [runLoop, finallyBlock, hf, hg, hE]
  rw [hstep]
  obtain ⟨t, ht⟩ := runLoop_events_extend engine flags rest (some s)
    (ev0 ++ [Event.attempt f] ++ outputDispatch flags f s ++
      [Event.attempt g, Event.errorLog g] ++ outputDispatch flags g s)
    (res0 ++ [(f, FileStatus.succeeded)] ++ [(g, FileStatus.failed)])
  rw [ht]
  simp only [List.append_assoc, List.mem_append]
  tauto

/-- Closed witness for `c3_stale_segments_reemitted`: file `"f"` succeeds
with one segment, file `"g"` raises, and `"g"`'s dispatch events (built from
`"f"`'s segments) appear in the trace. -/
theorem c3_stale_segments_reemitted_witness :
    ((fun x => if x = "g" then Outcome.exn else Outcome.success ["s1"]) "f" =
        Outcome.success ["s1"]) ∧
    (["s1"] : List Seg) ≠ [] ∧
    ((fun x => if x = "g" then Outcome.exn else Outcome.success ["s1"]) "g" =
        Outcome.exn) ∧
    (outputDispatch ⟨true, false, false, false⟩ "g" ["s1"] ≠ [] ∧
     ∀ e ∈ outputDispatch ⟨true, false, false, false⟩ "g" ["s1"],
       e ∈ (runLoop (fun x => if x = "g" then Outcome.exn
              else Outcome.success ["s1"])
              ⟨true, false, false, false⟩ ["f", "g"] Option.none [] []).1) :=
  ⟨rfl, by decide, rfl,
   c3_stale_segments_reemitted _ ⟨true, false, false, false⟩ "f" "g" []
     Option.none [] [] ["s1"] rfl (by decide) rfl⟩

/-- C4: a `KeyboardInterrupt` while processing a file terminates the batch
loop: the per-file status list is left exactly as it was (already-completed
results preserved), the run does not complete normally, and no transcription
attempt occurs after the interrupted file's own. Stated for the loop at an
arbitrary reached state, so the interrupted file may sit at any position. -/
theorem c4_interrupt_aborts_batch (engine : String → Outcome)
    (flags : OutFlags) (f : String) (rest : List String)
    (segs0 : Option (List Seg)) (ev0 : List Event)
    (res0 : List (String × FileStatus))
    (h : engine f = Outcome.interrupt) :
    (runLoop engine flags (f :: rest) segs0 ev0 res0).2.1 = res0 ∧
    ((runLoop engine flags (f :: rest) segs0 ev0 res0).2.2 =
        RunExit.interrupted ∨
     (runLoop engine flags (f :: rest) segs0 ev0 res0).2.2 =
        RunExit.crashed) ∧
    ∃ t, (runLoop engine flags (f :: rest) segs0 ev0 res0).1 =
        ev0 ++ Event.attempt f :: t ∧
      ∀ g, Event.attempt g ∉ t := by
  rcases segs0 with _ | s
  · refine ⟨by simp [runLoop, finallyBlock, h],
      Or.inr (by simp [runLoop, finallyBlock, h]),
      ⟨[Event.interruptLog, Event.nameError],
       by simp [runLoop, finallyBlock, h], ?_⟩⟩
    intro g hg
    simp at hg
  · refine ⟨by simp [runLoop, finallyBlock, h],
      Or.inl (by simp [runLoop, finallyBlock, h]),
      ⟨Event.interruptLog ::
         (if s.isEmpty then [] else outputDispatch flags f s),
       by simp [runLoop, finallyBlock, h], ?_⟩⟩
    intro g hg
    rcases List.mem_cons.1 hg with hg | hg
    · exact absurd hg (by simp)
    · revert hg; split
      · simp
      · exact attempt_not_mem_outputDispatch flags f g s

/-- Closed witness for `c4_interrupt_aborts_batch`: an interrupt on the
first of two files. -/
theorem c4_interrupt_aborts_batch_witness :
    ((fun _ => Outcome.interrupt) "a" = Outcome.interrupt) ∧
    ((runLoop (fun _ => Outcome.interrupt) ⟨true, false, false, false⟩
        ["a", "b"] Option.none [] []).2.1 = [] ∧
     ((runLoop (fun _ => Outcome.interrupt) ⟨true, false, false, false⟩
         ["a", "b"] Option.none [] []).2.2 = RunExit.interrupted ∨
      (runLoop (fun _ => Outcome.interrupt) ⟨true, false, false, false⟩
         ["a", "b"] Option.none [] []).2.2 = RunExit.crashed) ∧
     ∃ t, (runLoop (fun _ => Outcome.interrupt) ⟨true, false, false, false⟩
         ["a", "b"] Option.none [] []).1 = [] ++ Event.attempt "a" :: t ∧
       ∀ g, Event.attempt g ∉ t) :=
  ⟨rfl, c4_interrupt_aborts_batch _ ⟨true, false, false, false⟩ "a" ["b"]
     Option.none [] [] rfl⟩

/-- C10: when a `KeyboardInterrupt` aborts processing of a file after the
previous file succeeded with non-empty segments, the `finally` block still
runs the output dispatch once with the previous file's segments under the
interrupted file's source path, and only then does the `break` take effect:
the run ends interrupted with exactly that trace. -/
theorem c10_interrupt_still_emits_stale_output (engine : String → Outcome)
    (flags : OutFlags) (f g : String) (rest : List String)
    (segs0 : Option (List Seg)) (ev0 : List Event)
    (res0 : List (String × FileStatus)) (s : List Seg)
    (hf : engine f = Outcome.success s) (hs : s ≠ [])
    (hg : engine g = Outcome.interrupt) :
    runLoop engine flags (f :: g :: rest) segs0 ev0 res0 =
      (ev0 ++ [Event.attempt f] ++ outputDispatch flags f s ++
         [Event.attempt g, Event.interruptLog] ++ outputDispatch flags g s,
       res0 ++ [(f, FileStatus.succeeded)], RunExit.interrupted) := by
  have hE := isEmpty_false_of_ne_nil hs
  simp [runLoop, finallyBlock, hf, hg, hE]

/-- Closed witness for `c10_interrupt_still_emits_stale_output`: csv output
requested, file `"a"` succeeds, the interrupt during `"b"` still writes
`"a"`'s segments to `"b"`'s csv path. -/
theorem c10_interrupt_still_emits_stale_output_witness :
    ((fun x => if x = "a" then Outcome.success ["s1"] else Outcome.interrupt)
        "a" = Outcome.success ["s1"]) ∧
    (["s1"] : List Seg) ≠ [] ∧
    ((fun x => if x = "a" then Outcome.success ["s1"] else Outcome.interrupt)
        "b" = Outcome.interrupt) ∧
    runLoop (fun x => if x = "a" then Outcome.success ["s1"]
        else Outcome.interrupt)
      ⟨false, false, false, true⟩ ["a", "b", "c"] Option.none [] [] =
      ([] ++ [Event.attempt "a"] ++
         outputDispatch ⟨false, false, false, true⟩ "a" ["s1"] ++
         [Event.attempt "b", Event.interruptLog] ++
         outputDispatch ⟨false, false, false, true⟩ "b" ["s1"],
       [] ++ [("a", FileStatus.succeeded)], RunExit.interrupted) :=
  ⟨rfl, by decide, rfl,
   c10_interrupt_still_emits_stale_output _ ⟨false, false, false, true⟩
     "a" "b" ["c"] Option.none [] [] ["s1"] rfl (by decide) rfl⟩

/-- C5: for a dispatch over non-empty segments, requesting csv output
suppresses every per-segment console log line, while not requesting it
emits exactly one console line per segment (in order, with its index); the
txt, vtt and srt writes occur if and only if their own flags are set, in
either case. -/
theorem c5_csv_console_mutual_exclusion (flags : OutFlags) (f : String)
    (s : List Seg) (_hs : s ≠ []) :
    (flags.output_csv = true →
      (outputDispatch flags f s).filter isConsoleSeg = []) ∧
    (flags.output_csv = false →
      (outputDispatch flags f s).filter isConsoleSeg =
        s.enum.map (fun p => Event.consoleSeg f p.1 p.2)) ∧
    (Event.writeTxt f s ∈ outputDispatch flags f s ↔
      flags.output_txt = true) ∧
    (Event.writeVtt f s ∈ outputDispatch flags f s ↔
      flags.output_vtt = true) ∧
    (Event.writeSrt f s ∈ outputDispatch flags f s ↔
      flags.output_srt = true) := by
  obtain ⟨bt, bv, bs, bc⟩ := flags
  cases bt <;> cases bv <;> cases bs <;> cases bc <;>
    simp [outputDispatch, isConsoleSeg, List.filter_append,
      filter_console_enum]

/-- Closed witness for `c5_csv_console_mutual_exclusion`, with txt and csv
requested on a two-segment result. -/
theorem c5_csv_console_mutual_exclusion_witness :
    (["x", "y"] : List Seg) ≠ [] ∧
    (((⟨true, false, false, true⟩ : OutFlags).output_csv = true →
      (outputDispatch ⟨true, false, false, true⟩ "a" ["x", "y"]).filter
        isConsoleSeg = []) ∧
     ((⟨true, false, false, true⟩ : OutFlags).output_csv = false →
      (outputDispatch ⟨true, false, false, true⟩ "a" ["x", "y"]).filter
        isConsoleSeg =
        (["x", "y"] : List Seg).enum.map
          (fun p => Event.consoleSeg "a" p.1 p.2)) ∧
     (Event.writeTxt "a" ["x", "y"] ∈
        outputDispatch ⟨true, false, false, true⟩ "a" ["x", "y"] ↔
      (⟨true, false, false, true⟩ : OutFlags).output_txt = true) ∧
     (Event.writeVtt "a" ["x", "y"] ∈
        outputDispatch ⟨true, false, false, true⟩ "a" ["x", "y"] ↔
      (⟨true, false, false, true⟩ : OutFlags).output_vtt = true) ∧
     (Event.writeSrt "a" ["x", "y"] ∈
        outputDispatch ⟨true, false, false, true⟩ "a" ["x", "y"] ↔
      (⟨true, false, false, true⟩ : OutFlags).output_srt = true)) :=
  ⟨by decide,
   c5_csv_console_mutual_exclusion ⟨true, false, false, true⟩ "a"
     ["x", "y"] (by decide)⟩

/-- C2: one pass of the resolver loop behaves exactly as specified, for
every schema/mapping pair and every accumulated result: a name that is a
canonical schema key with a non-null value is assigned directly; otherwise
a name found in the inverse mapping is resolved to its canonical path — a
dotless path is assigned directly at `result[path]`, and a path splitting
into group and field stores the value at `result[group][field]`, first
initializing the group as a nested mapping when absent; a name in neither
table leaves the result untouched. -/
theorem c2_parameter_resolver_algorithm {A : Type} (schema : List String)
    (invMap : List (String × String)) (params : List (String × PVal A))
    (arg : String) (v : Option A) :
    (arg ∈ schema → v.isSome = true →
      resolveArg schema invMap params arg v =
        .ok (dictSet params arg (PVal.atom v))) ∧
    (¬ (arg ∈ schema ∧ v.isSome = true) →
      (pyLookup invMap arg = Option.none →
        resolveArg schema invMap params arg v = .ok params) ∧
      (∀ canon, pyLookup invMap arg = some canon →
        (hasDot canon = false →
          resolveArg schema invMap params arg v =
            .ok (dictSet params canon (PVal.atom v))) ∧
        (∀ grp fld, splitDots canon = [grp, fld] →
          (pyLookup params grp = Option.none →
            resolveArg schema invMap params arg v =
              .ok (dictSet params grp (PVal.group [(fld, v)]))) ∧
          (∀ d, pyLookup params grp = some (PVal.group d) →
            resolveArg schema invMap params arg v =
              .ok (dictSet params grp (PVal.group (dictSet d fld v))))))) := by
  refine ⟨fun h1 h2 => ?_, fun hn => ⟨fun hno => ?_, fun canon hc => ⟨fun hnd => ?_, ?_⟩⟩⟩
  · simp only [resolveArg]
    rw [if_pos ⟨h1, h2⟩]
  · simp only [resolveArg]
    rw [if_neg hn, hno]
  · simp only [resolveArg]
    rw [if_neg hn, hc]
    simp [hnd]
  · intro grp fld hsplit
    have hd : hasDot canon = true := hasDot_of_splitDots_pair hsplit
    refine ⟨fun habs => ?_, fun d hgrp => ?_⟩
    · simp only [resolveArg]
      rw [if_neg hn, hc]
      simp [hd, hsplit, habs]
    · simp only [resolveArg]
      rw [if_neg hn, hc]
      simp [hd, hsplit, hgrp]

/-- Closed witness for `c2_parameter_resolver_algorithm`: direct assignment
of a schema key with a non-null value. -/
theorem c2_parameter_resolver_algorithm_witness :
    ("x" ∈ ["x", "y"]) ∧ (some 1 : Option Nat).isSome = true ∧
    resolveArg ["x", "y"] [("speed-up", "vad.speed_up")]
        ([] : List (String × PVal Nat)) "x" (some 1) =
      .ok [("x", PVal.atom (some 1))] :=
  ⟨by simp, rfl,
   (c2_parameter_resolver_algorithm ["x", "y"]
      [("speed-up", "vad.speed_up")] [] "x" (some 1)).1 (by simp) rfl⟩

/-- C6 as frozen is false: it omits the non-null condition of the schema
branch. For a name present both as a canonical schema key and as a mapped
externally-facing name, a null value makes `arg in PARAMS_SCHEMA and
getattr(args, arg) is not None` fail, so the name falls through to the
mapping branch and IS resolved through the dotted-path resolution: here
`"x"` is a schema key and maps to canonical path `"g.f"`, yet the resolver
stores `{"g": {"f": None}}` instead of touching key `"x"`. -/
theorem c6_schema_precedence_counterexample :
    ("x" ∈ ["x"]) ∧
    pyLookup (inv_params_mapping [("g.f", "x")]) "x" = some "g.f" ∧
    hasDot "g.f" = true ∧
    _get_params (A := Nat) ["x"] [("g.f", "x")] [("x", Option.none)] =
      .ok [("g", PVal.group [("f", Option.none)])] ∧
    pyLookup
        [("g", PVal.group (A := Nat) [("f", Option.none)])] "x" =
      Option.none := by
  refine ⟨by simp, rfl, rfl, rfl, rfl⟩

/-- C6 amended: for every argument name that is a canonical schema key
**with a non-null value** — whether or not it also appears as a mapped
externally-facing name — the resolver assigns it directly under the
canonical name and never goes through the mapping's dotted-path
resolution. -/
theorem c6_schema_precedence_amended {A : Type} (schema : List String)
    (invMap : List (String × String)) (params : List (String × PVal A))
    (arg : String) (v : Option A) (h1 : arg ∈ schema)
    (h2 : v.isSome = true) (_h3 : (pyLookup invMap arg).isSome = true) :
    resolveArg schema invMap params arg v =
      .ok (dictSet params arg (PVal.atom v)) := by
  simp only [resolveArg]
  rw [if_pos ⟨h1, h2⟩]

/-- Closed witness for `c6_schema_precedence_amended`: the counterexample's
tables with a non-null value now resolve via the schema path. -/
theorem c6_schema_precedence_amended_witness :
    ("x" ∈ ["x"]) ∧ (some 7 : Option Nat).isSome = true ∧
    (pyLookup (inv_params_mapping [("g.f", "x")]) "x").isSome = true ∧
    resolveArg ["x"] (inv_params_mapping [("g.f", "x")])
        ([] : List (String × PVal Nat)) "x" (some 7) =
      .ok [("x", PVal.atom (some 7))] :=
  ⟨by simp, rfl, rfl,
   c6_schema_precedence_amended ["x"] (inv_params_mapping [("g.f", "x")])
     [] "x" (some 7) (by simp) rfl rfl⟩

/-- An argument recognized by neither table leaves the accumulated params
unchanged (`else: pass`). -/
lemma resolveArg_unrecognized {A : Type} {schema : List String}
    {invMap : List (String × String)} {arg : String}
    (h1 : arg ∉ schema) (h2 : pyLookup invMap arg = Option.none)
    (params : List (String × PVal A)) (v : Option A) :
    resolveArg schema invMap params arg v = .ok params := by
  simp only [resolveArg]
  rw [if_neg (fun hc => h1 hc.1), h2]

/-- Removing an unrecognized argument from anywhere in the list leaves the
whole loop's outcome unchanged, for every accumulated params dict. -/
lemma getParamsLoop_skip {A : Type} {schema : List String}
    {invMap : List (String × String)} {arg : String}
    (h1 : arg ∉ schema) (h2 : pyLookup invMap arg = Option.none) :
    ∀ (pre post : List (String × Option A)) (v : Option A)
      (params : List (String × PVal A)),
      getParamsLoop schema invMap (pre ++ (arg, v) :: post) params =
        getParamsLoop schema invMap (pre ++ post) params := by
  intro pre
  induction pre with
  | nil =>
      intro post v params
      simp only [List.nil_append, getParamsLoop,
        resolveArg_unrecognized h1 h2 params v]
  | cons p pre ih =>
      intro post v params
      obtain ⟨a, w⟩ := p
      simp only [List.cons_append, getParamsLoop]
      cases resolveArg schema invMap params a w with
      | ok params' => exact ih post v params'
      | error e => rfl

/-- C7: unrecognized arguments are inert — for every flat argument set,
removing (equivalently, adding) an argument whose name is neither a
canonical schema key nor a mapped externally-facing name leaves the output
of `_get_params` unchanged, wherever in the set it sits. -/
theorem c7_unrecognized_arguments_inert {A : Type} (schema : List String)
    (mapping : List (String × String))
    (pre post : List (String × Option A)) (arg : String) (v : Option A)
    (h1 : arg ∉ schema)
    (h2 : pyLookup (inv_params_mapping mapping) arg = Option.none) :
    _get_params schema mapping (pre ++ (arg, v) :: post) =
      _get_params schema mapping (pre ++ post) := by
  simp only [_get_params]
  exact getParamsLoop_skip h1 h2 pre post v []

/-- Closed witness for `c7_unrecognized_arguments_inert`: dropping the
unknown argument `"z"` between two recognized ones changes nothing. -/
theorem c7_unrecognized_arguments_inert_witness :
    ("z" ∉ ["x"]) ∧
    pyLookup (inv_params_mapping [("g.f", "y")]) "z" = Option.none ∧
    _get_params (A := Nat) ["x"] [("g.f", "y")]
        ([("x", some 1)] ++ ("z", some 5) :: [("y", some 2)]) =
      _get_params (A := Nat) ["x"] [("g.f", "y")]
        ([("x", some 1)] ++ [("y", some 2)]) :=
  ⟨by simp, rfl,
   c7_unrecognized_arguments_inert ["x"] [("g.f", "y")] [("x", some 1)]
     [("y", some 2)] "z" (some 5) (by simp) rfl⟩

/-- C8 as frozen is false for dict-typed schema entries: the code only
registers a flag for a default sub-key whose dotted path has a truthy
mapping entry (`if map_val:`); there is no canonical-name fallback for
dict sub-keys. A schema holding one dict-typed entry with one default
sub-key and an empty mapping table registers no flag at all, not one. -/
theorem c8_flag_derivation_counterexample :
    deriveFlags [("g", PType.pdict [("f", "1")])] [] = [] ∧
    [("f", "1")].length = 1 := by
  exact ⟨rfl, rfl⟩

/-- C8 amended: a non-dict schema entry registers exactly one flag, named
by replacing underscores with hyphens in the mapped externally-facing name
when a mapping exists and in the canonical name otherwise; a dict-typed
entry registers one flag per default sub-key whose dotted path
`param.subkey` has a non-empty mapping entry — named from that mapped name
— and no flag for the other sub-keys; entries contribute independently and
in order. -/
theorem c8_flag_derivation_amended (mapping : List (String × String))
    (param : String) :
    (∀ dft, deriveFlags [(param, PType.patom dft)] mapping =
      [match pyLookup mapping param with
       | some mapped => "--" ++ dashify mapped
       | Option.none => "--" ++ dashify param]) ∧
    (∀ defaults flag,
      flag ∈ deriveFlags [(param, PType.pdict defaults)] mapping ↔
        ∃ kv ∈ defaults, ∃ m,
          pyLookup mapping (param ++ "." ++ kv.1) = some m ∧ m ≠ "" ∧
          flag = "--" ++ dashify m) ∧
    (∀ schema, deriveFlags schema mapping =
      schema.flatMap (fun pe => deriveFlags [pe] mapping)) := by
  refine ⟨fun dft => ?_, fun defaults flag => ?_, fun schema => ?_⟩
  · simp only [deriveFlags, List.flatMap_cons, List.flatMap_nil,
      List.append_nil]
    cases pyLookup mapping param <;> rfl
  · simp only [deriveFlags, List.flatMap_cons, List.flatMap_nil,
      List.append_nil]
    rw [List.mem_flatMap]
    constructor
    · rintro ⟨kv, hkv, hflag⟩
      refine ⟨kv, hkv, ?_⟩
      revert hflag
      cases hm : pyLookup mapping (param ++ "." ++ kv.1) with
      | none => intro hflag; simp at hflag
      | some m =>
          by_cases hme : m = ""
          · subst hme; intro hflag; simp at hflag
          · intro hflag
            refine ⟨m, rfl, hme, ?_⟩
            simpa [hme] using hflag
    · rintro ⟨kv, hkv, m, hm2, hme, rfl⟩
      refine ⟨kv, hkv, ?_⟩
      rw [hm2]
      simp [hme]
  · induction schema with
    | nil => rfl
    | cons pe rest ih =>
        simp only [deriveFlags, List.flatMap_cons] at ih ⊢
        rw [ih]
        simp

end PyWhisperCpp
